import Mathlib

/-!
Verification of the S3 bucket client (key validation, request construction,
content-integrity hashing, response interpretation, list-page decoding)
against its natural-language specification.

Go strings and byte slices are modelled as lists of byte values
(`List Nat`, each < 256).  Runes (Unicode codepoints) are modelled as `Nat`.
Collaborators (Signer, Connection, Clock) are injected as explicit
parameters, mirroring the dependency injection in the source.
-/

namespace S3

/-- A Go string / byte slice: its sequence of byte values. -/
abbrev GoStr := List Nat

/-- UTF-8 encoding of a single Unicode scalar value, as a byte list. -/
def utf8EncodeChar (c : Char) : List Nat :=
  let n := c.toNat
  if n < 0x80 then [n]
  else if n < 0x800 then [0xC0 + n / 0x40, 0x80 + n % 0x40]
  else if n < 0x10000 then
    [0xE0 + n / 0x1000, 0x80 + (n / 0x40) % 0x40, 0x80 + n % 0x40]
  else
    [0xF0 + n / 0x40000, 0x80 + (n / 0x1000) % 0x40,
     0x80 + (n / 0x40) % 0x40, 0x80 + n % 0x40]

/-- The bytes of a Lean string literal, UTF-8 encoded: a Go string constant. -/
def goStr (s : String) : GoStr :=
  s.data.foldr (fun c acc => utf8EncodeChar c ++ acc) []

/-- A UTF-8 continuation byte (10xxxxxx). -/
def isContByte (b : Nat) : Bool := 0x80 ≤ b && b ≤ 0xBF

/-- Decode one rune from the front of a byte list, following the acceptance
ranges of Go's unicode/utf8 package (rejecting overlong encodings, surrogate
codepoints and values above U+10FFFF).  Returns the rune and the rest, or
`none` on malformed input. -/
def decodeOne : List Nat → Option (Nat × List Nat)
  | [] => none
  | b0 :: rest =>
    if b0 < 0x80 then some (b0, rest)
    else if 0xC2 ≤ b0 && b0 ≤ 0xDF then
      match rest with
      | b1 :: r =>
        if isContByte b1 then some ((b0 - 0xC0) * 0x40 + (b1 - 0x80), r) else none
      | _ => none
    else if 0xE0 ≤ b0 && b0 ≤ 0xEF then
      match rest with
      | b1 :: b2 :: r =>
        let okB1 :=
          if b0 == 0xE0 then 0xA0 ≤ b1 && b1 ≤ 0xBF
          else if b0 == 0xED then 0x80 ≤ b1 && b1 ≤ 0x9F
          else isContByte b1
        if okB1 && isContByte b2 then
          some ((b0 - 0xE0) * 0x1000 + (b1 - 0x80) * 0x40 + (b2 - 0x80), r)
        else none
      | _ => none
    else if 0xF0 ≤ b0 && b0 ≤ 0xF4 then
      match rest with
      | b1 :: b2 :: b3 :: r =>
        let okB1 :=
          if b0 == 0xF0 then 0x90 ≤ b1 && b1 ≤ 0xBF
          else if b0 == 0xF4 then 0x80 ≤ b1 && b1 ≤ 0x8F
          else isContByte b1
        if okB1 && isContByte b2 && isContByte b3 then
          some ((b0 - 0xF0) * 0x40000 + (b1 - 0x80) * 0x1000 +
                (b2 - 0x80) * 0x40 + (b3 - 0x80), r)
        else none
      | _ => none
    else none

/-- Decode a whole byte list to its rune sequence; `none` if any step is
malformed (so `isSome` coincides with Go's utf8.ValidString). -/
def decodeAll : Nat → List Nat → Option (List Nat)
  | _, [] => some []
  | 0, _ => none
  | fuel + 1, l =>
    match decodeOne l with
    | none => none
    | some (r, rest) => (decodeAll fuel rest).map (fun rs => r :: rs)

/-- Uppercase hexadecimal digit byte. -/
def hexDigit (n : Nat) : Nat := if n < 10 then 48 + n else 55 + n

/-- Uppercase hexadecimal byte representation of a natural number. -/
def toHexBytes : Nat → Nat → List Nat
  | 0, _ => []
  | fuel + 1, n =>
    if n < 16 then [hexDigit n] else toHexBytes fuel (n / 16) ++ [hexDigit (n % 16)]

/-- Go fmt %U formatting of a rune: U+ followed by at least four uppercase
hex digits. -/
def fmtCodepoint (r : Nat) : GoStr :=
  let h := toHexBytes (r + 1) r
  goStr ("U+") ++ (if h.length < 4 then List.replicate (4 - h.length) 48 ++ h else h)

/-- Decimal byte representation of a natural number (Go fmt %d). -/
def natToDec : Nat → Nat → List Nat
  | 0, _ => []
  | fuel + 1, n =>
    if n < 10 then [48 + n] else natToDec fuel (n / 10) ++ [48 + n % 10]

/-- Go fmt %d of a (non-negative) integer. -/
def decBytes (n : Nat) : GoStr := natToDec (n + 1) n

/-- Embeds isLegalXmlCharacter from s3/bucket.go: note the literal upper
bound 0xDF77 of the first large range in the source. -/
def isLegalXmlCharacter (r : Nat) : Bool :=
  r == 0x09 || r == 0x0A || r == 0x0D ||
  (decide (0x20 ≤ r) && decide (r ≤ 0xDF77)) ||
  (decide (0xE000 ≤ r) && decide (r ≤ 0xFFFD)) ||
  (decide (0x10000 ≤ r) && decide (r ≤ 0x10FFFF))

/-- The legal-character predicate as the specification words it: U+0009,
U+000A, U+000D, and the ranges U+0020..U+D7FF, U+E000..U+FFFD,
U+10000..U+10FFFF (the XML 1.0 Char production). -/
def specLegalXmlCharacter (r : Nat) : Bool :=
  r == 0x09 || r == 0x0A || r == 0x0D ||
  (decide (0x20 ≤ r) && decide (r ≤ 0xD7FF)) ||
  (decide (0xE000 ≤ r) && decide (r ≤ 0xFFFD)) ||
  (decide (0x10000 ≤ r) && decide (r ≤ 0x10FFFF))

/-- Embeds validateKey from s3/bucket.go: byte-length bound, UTF-8
validity, non-emptiness, then the first illegal rune (in order) is reported
with its codepoint.  Returns the error message, or `none` for a valid key. -/
def validateKey (key : GoStr) : Option GoStr :=
  if key.length > 1024 then some (goStr ("Keys may be no longer than 1024 bytes."))
  else
    match decodeAll (key.length + 1) key with
    | none => some (goStr ("Keys must be valid UTF-8."))
    | some runes =>
      if key = [] then some (goStr ("Keys must be non-empty."))
      else
        match runes.find? (fun r => !(isLegalXmlCharacter r)) with
        | some r => some (goStr ("Key contains invalid codepoint: ") ++ fmtCodepoint r)
        | none => none

/-- Truncation to a 32-bit word. -/
def w32 (n : Nat) : Nat := n % 4294967296

/-- 32-bit modular addition. -/
def wadd (a b : Nat) : Nat := w32 (a + b)

/-- 32-bit left rotation (for values below 2^32). -/
def rotl (x s : Nat) : Nat := w32 (x * 2 ^ s) + x / 2 ^ (32 - s)

/-- 32-bit complement (for values below 2^32). -/
def wnot (x : Nat) : Nat := 4294967295 - x

/-- The 64 MD5 round constants (floor(abs(sin(i+1)) * 2^32)). -/
def md5K : List Nat :=
  [0xd76aa478, 0xe8c7b756, 0x242070db, 0xc1bdceee,
   0xf57c0faf, 0x4787c62a, 0xa8304613, 0xfd469501,
   0x698098d8, 0x8b44f7af, 0xffff5bb1, 0x895cd7be,
   0x6b901122, 0xfd987193, 0xa679438e, 0x49b40821,
   0xf61e2562, 0xc040b340, 0x265e5a51, 0xe9b6c7aa,
   0xd62f105d, 0x02441453, 0xd8a1e681, 0xe7d3fbc8,
   0x21e1cde6, 0xc33707d6, 0xf4d50d87, 0x455a14ed,
   0xa9e3e905, 0xfcefa3f8, 0x676f02d9, 0x8d2a4c8a,
   0xfffa3942, 0x8771f681, 0x6d9d6122, 0xfde5380c,
   0xa4beea44, 0x4bdecfa9, 0xf6bb4b60, 0xbebfbc70,
   0x289b7ec6, 0xeaa127fa, 0xd4ef3085, 0x04881d05,
   0xd9d4d039, 0xe6db99e5, 0x1fa27cf8, 0xc4ac5665,
   0xf4292244, 0x432aff97, 0xab9423a7, 0xfc93a039,
   0x655b59c3, 0x8f0ccc92, 0xffeff47d, 0x85845dd1,
   0x6fa87e4f, 0xfe2ce6e0, 0xa3014314, 0x4e0811a1,
   0xf7537e82, 0xbd3af235, 0x2ad7d2bb, 0xeb86d391]

/-- The MD5 per-round shift amounts. -/
def md5S : List Nat :=
  [7, 12, 17, 22, 7, 12, 17, 22, 7, 12, 17, 22, 7, 12, 17, 22,
   5, 9, 14, 20, 5, 9, 14, 20, 5, 9, 14, 20, 5, 9, 14, 20,
   4, 11, 16, 23, 4, 11, 16, 23, 4, 11, 16, 23, 4, 11, 16, 23,
   6, 10, 15, 21, 6, 10, 15, 21, 6, 10, 15, 21, 6, 10, 15, 21]

/-- One MD5 inner round on state (A, B, C, D) with message words M. -/
def md5Round (M : List Nat) (st : Nat × Nat × Nat × Nat) (i : Nat) :
    Nat × Nat × Nat × Nat :=
  let (A, B, C, D) := st
  let f :=
    if i < 16 then Nat.lor (Nat.land B C) (Nat.land (wnot B) D)
    else if i < 32 then Nat.lor (Nat.land D B) (Nat.land (wnot D) C)
    else if i < 48 then Nat.xor B (Nat.xor C D)
    else Nat.xor C (Nat.lor B (wnot D))
  let g :=
    if i < 16 then i
    else if i < 32 then (5 * i + 1) % 16
    else if i < 48 then (3 * i + 5) % 16
    else (7 * i) % 16
  let F := wadd (wadd (wadd f A) (md5K.getD i 0)) (M.getD g 0)
  (D, wadd B (rotl F (md5S.getD i 0)), B, C)

/-- Little-endian 32-bit words of a byte list (length a multiple of 4). -/
def toWords : List Nat → List Nat
  | b0 :: b1 :: b2 :: b3 :: rest =>
    (b0 + 256 * (b1 + 256 * (b2 + 256 * b3))) :: toWords rest
  | _ => []

/-- Four little-endian bytes of a 32-bit word. -/
def le4 (n : Nat) : List Nat :=
  [n % 256, n / 256 % 256, n / 65536 % 256, n / 16777216 % 256]

/-- Eight little-endian bytes of a 64-bit length field. -/
def le8 (n : Nat) : List Nat := le4 (n % 4294967296) ++ le4 (n / 4294967296)

/-- MD5 padding: 0x80, zeros to 56 mod 64, then the bit length. -/
def md5Pad (msg : List Nat) : List Nat :=
  let z := (120 - (msg.length + 1) % 64) % 64
  msg ++ [0x80] ++ List.replicate z 0 ++ le8 (msg.length * 8)

/-- Split into 64-byte blocks. -/
def chunks64 : Nat → List Nat → List (List Nat)
  | 0, _ => []
  | _, [] => []
  | fuel + 1, l => l.take 64 :: chunks64 fuel (l.drop 64)

/-- Process one 64-byte block into the running MD5 state. -/
def md5Block (st : Nat × Nat × Nat × Nat) (block : List Nat) :
    Nat × Nat × Nat × Nat :=
  let M := toWords block
  let (a, b, c, d) := st
  let (A, B, C, D) := (List.range 64).foldl (md5Round M) (a, b, c, d)
  (wadd a A, wadd b B, wadd c C, wadd d D)

/-- The MD5 digest (16 bytes) of a byte list. -/
def md5 (msg : List Nat) : List Nat :=
  let padded := md5Pad msg
  let (a, b, c, d) := (chunks64 (padded.length + 1) padded).foldl md5Block
    (0x67452301, 0xefcdab89, 0x98badcfe, 0x10325476)
  le4 a ++ le4 b ++ le4 c ++ le4 d

/-- A standard base64 alphabet digit byte. -/
def b64Digit (n : Nat) : Nat :=
  if n < 26 then 65 + n
  else if n < 52 then 97 + (n - 26)
  else if n < 62 then 48 + (n - 52)
  else if n == 62 then 43 else 47

/-- Standard base64 encoding with = padding. -/
def base64Enc : List Nat → List Nat
  | [] => []
  | [b0] => [b64Digit (b0 / 4), b64Digit (b0 % 4 * 16), 61, 61]
  | [b0, b1] =>
    [b64Digit (b0 / 4), b64Digit (b0 % 4 * 16 + b1 / 16), b64Digit (b1 % 16 * 4), 61]
  | b0 :: b1 :: b2 :: rest =>
    b64Digit (b0 / 4) :: b64Digit (b0 % 4 * 16 + b1 / 16) ::
    b64Digit (b1 % 16 * 4 + b2 / 64) :: b64Digit (b2 % 64) :: base64Enc rest

/-- An io.ReadSeeker: underlying bytes, a read position, an optional read
fault (the stream yields `failAfter` more bytes and then errors with
`readErrMsg`), and the outcomes of its successive Seek(0, 0) calls
(`none` entries and the empty tail mean success). -/
structure ReadSeeker where
  content : List Nat
  pos : Nat
  failAfter : Option Nat
  readErrMsg : GoStr
  seekErrs : List (Option GoStr)
  deriving DecidableEq, Repr

/-- A fault-free in-memory reader at position 0 (bytes.NewReader). -/
def pureReader (data : List Nat) : ReadSeeker :=
  { content := data, pos := 0, failAfter := none, readErrMsg := [], seekErrs := [] }

/-- Seek(0, 0): on success the position becomes 0; on failure it is
unchanged. -/
def seek0 (rs : ReadSeeker) : Option GoStr × ReadSeeker :=
  match rs.seekErrs with
  | [] => (none, { rs with pos := 0 })
  | none :: rest => (none, { rs with pos := 0, seekErrs := rest })
  | some e :: rest => (some e, { rs with seekErrs := rest })

/-- io.Copy from the current position to EOF (or to the read fault):
returns the bytes read and the read error, advancing the position. -/
def copyToEnd (rs : ReadSeeker) : (List Nat × Option GoStr) × ReadSeeker :=
  let remaining := rs.content.drop rs.pos
  match rs.failAfter with
  | some n =>
    if n < remaining.length then
      ((remaining.take n, some rs.readErrMsg), { rs with pos := rs.pos + n })
    else ((remaining, none), { rs with pos := rs.content.length })
  | none => ((remaining, none), { rs with pos := rs.content.length })

/-- Embeds encodeMD5 from s3/bucket.go, including the Go named-return
semantics of its deferred rewind: the function seeks to 0, hashes the
stream, and the deferred `body.Seek(0, 0)` assigns its own error to the
named return value `err` on every exit path after the first seek check
(overwriting any copy error).  Returns ((result, err), stream after). -/
def encodeMD5 (body : ReadSeeker) : (GoStr × Option GoStr) × ReadSeeker :=
  match seek0 body with
  | (some e, b1) => (([], some e), b1)
  | (none, b1) =>
    match copyToEnd b1 with
    | ((_, some _), b2) =>
      -- pre-defer return is ("", md5Hash.Copy error); the deferred seek
      -- then reassigns err, so the copy error never escapes
      let (e2, b3) := seek0 b2
      (([], e2), b3)
    | ((data, none), b2) =>
      let result := base64Enc (md5 data)
      let (e2, b3) := seek0 b2
      ((result, e2), b3)

/-- HTTP response headers, passed through opaquely. -/
abbrev Header := List (GoStr × List GoStr)

/-- A protocol-level request (s3/http Request): verb, path, headers, query
parameters and optional body stream.  Maps are modelled as association
lists with unique keys. -/
structure Request where
  verb : GoStr
  path : GoStr
  headers : List (GoStr × GoStr)
  parameters : List (GoStr × GoStr)
  body : Option ReadSeeker
  deriving DecidableEq, Repr

/-- A protocol-level response (s3/http Response).  The body is modelled as
its byte content; ReadBody is modelled from the spec (read the body fully,
or surface a distinct read error recorded in `readErr`). -/
structure Response where
  statusCode : Nat
  header : Header
  body : List Nat
  readErr : Option GoStr
  deriving DecidableEq, Repr

/-- ReadBody, modelled from the spec: the full body bytes, or the stream's
read error. -/
def readBody (resp : Response) : Except GoStr (List Nat) :=
  match resp.readErr with
  | some e => .error e
  | none => .ok resp.body

/-- Map assignment on an association list (replace or append). -/
def setAssoc (m : List (GoStr × GoStr)) (k v : GoStr) : List (GoStr × GoStr) :=
  match m with
  | [] => [(k, v)]
  | (k0, v0) :: rest => if k0 = k then (k, v) :: rest else (k0, v0) :: setAssoc rest k v

/-- Whether a byte is left unescaped by Go's query escaping (alphanumerics
and - _ . ~). -/
def unreservedByte (b : Nat) : Bool :=
  (decide (48 ≤ b) && decide (b ≤ 57)) ||
  (decide (65 ≤ b) && decide (b ≤ 90)) ||
  (decide (97 ≤ b) && decide (b ≤ 122)) ||
  b == 45 || b == 95 || b == 46 || b == 126

/-- Go's url.QueryEscape on one byte: unreserved bytes kept, space becomes
a plus sign, everything else percent-encoded in uppercase hex. -/
def queryEscByte (b : Nat) : List Nat :=
  if unreservedByte b then [b]
  else if b == 32 then [43]
  else [37, hexDigit (b / 16), hexDigit (b % 16)]

/-- Go's url.QueryEscape over a byte string. -/
def queryEscape (s : GoStr) : GoStr :=
  s.foldr (fun b acc => queryEscByte b ++ acc) []

/-- Byte-lexicographic order on Go strings (sort.Strings). -/
def strLt : GoStr → GoStr → Bool
  | [], [] => false
  | [], _ :: _ => true
  | _ :: _, [] => false
  | a :: as, b :: bs => decide (a < b) || (a == b && strLt as bs)

/-- Insertion into a key-sorted association list. -/
def insertSorted (x : GoStr × GoStr) : List (GoStr × GoStr) → List (GoStr × GoStr)
  | [] => [x]
  | y :: ys => if strLt x.1 y.1 then x :: y :: ys else y :: insertSorted x ys

/-- Sort an association list by key (sort.Strings over the map keys). -/
def sortByKey (l : List (GoStr × GoStr)) : List (GoStr × GoStr) :=
  l.foldr insertSorted []

/-- Join encoded parameters with ampersands. -/
def joinAmp : List GoStr → GoStr
  | [] => []
  | [x] => x
  | x :: y :: ys => x ++ [38] ++ joinAmp (y :: ys)

/-- Go's url.Values.Encode: keys sorted, each key and value query-escaped,
pairs joined with ampersands. -/
def valuesEncode (m : List (GoStr × GoStr)) : GoStr :=
  joinAmp ((sortByKey m).map (fun kv => queryEscape kv.1 ++ [61] ++ queryEscape kv.2))

/-- Embeds makeRawQuery from s3/http/conn.go: the request parameters are
copied into a url.Values via Set and encoded with url.Values.Encode. -/
def makeRawQuery (r : Request) : GoStr :=
  valuesEncode (r.parameters.foldl (fun m kv => setAssoc m kv.1 kv.2) [])

/-- A trace event: a call to the Signer or to the Connection. -/
inductive Event where
  | sign (r : Request)
  | send (r : Request)
  deriving DecidableEq, Repr

/-- The injected signer capability: returns the request with auth headers
added (the source mutates it in place), or an error. -/
abbrev Signer := Request → Except GoStr Request

/-- The injected connection capability. -/
abbrev Conn := Request → Except GoStr Response

/-- A signer that adds nothing and never fails (like the test mocks). -/
def idSigner : Signer := fun r => .ok r

/-- A connection that always delivers the given response. -/
def constConn (resp : Response) : Conn := fun _ => .ok resp

/-- Embeds serverError from s3/bucket.go: read the body (a read failure is
returned as-is), then "Error from server: %d %s". -/
def serverError (resp : Response) : GoStr :=
  match resp.readErr with
  | some e => e
  | none => goStr ("Error from server: ") ++ decBytes resp.statusCode ++ [32] ++ resp.body

/-- The object path "/%s/%s" of bucket and key. -/
def objectPath (name key : GoStr) : GoStr := [47] ++ name ++ [47] ++ key

/-- Embeds addMd5Header from s3/bucket.go: compute the body digest over a
fresh byte reader and set the Content-MD5 header. -/
def addMd5Header (r : Request) (body : List Nat) : Except GoStr Request :=
  match (encodeMD5 (pureReader body)).1 with
  | (_, some e) => .error e
  | (bodyMD5, none) =>
    .ok { r with headers := setAssoc r.headers (goStr ("Content-MD5")) bodyMD5 }

/-- Embeds bucket.GetObject: validate, build the GET request, sign, send,
require status 200, read the body.  The second component is the trace of
collaborator calls.  `date` is the formatted clock value for the Date
header. -/
def getObject (name : GoStr) (sign : Signer) (send : Conn) (date key : GoStr) :
    (Option (List Nat) × Option GoStr) × List Event :=
  match validateKey key with
  | some e => ((none, some e), [])
  | none =>
    let req : Request :=
      { verb := goStr ("GET"), path := objectPath name key,
        headers := [(goStr ("Date"), date)], parameters := [], body := none }
    match sign req with
    | .error e => ((none, some (goStr ("Sign: ") ++ e)), [.sign req])
    | .ok r2 =>
      match send r2 with
      | .error e => ((none, some (goStr ("SendRequest: ") ++ e)), [.sign req, .send r2])
      | .ok resp =>
        if resp.statusCode ≠ 200 then
          ((none, some (serverError resp)), [.sign req, .send r2])
        else
          match readBody resp with
          | .error e => ((none, some e), [.sign req, .send r2])
          | .ok data => ((some data, none), [.sign req, .send r2])

/-- Embeds bucket.GetHeader: like GetObject with verb HEAD, but the
response's header mapping is returned on the 200 path and also alongside
the server error on the non-200 path. -/
def getHeader (name : GoStr) (sign : Signer) (send : Conn) (date key : GoStr) :
    (Option Header × Option GoStr) × List Event :=
  match validateKey key with
  | some e => ((none, some e), [])
  | none =>
    let req : Request :=
      { verb := goStr ("HEAD"), path := objectPath name key,
        headers := [(goStr ("Date"), date)], parameters := [], body := none }
    match sign req with
    | .error e => ((none, some (goStr ("Sign: ") ++ e)), [.sign req])
    | .ok r2 =>
      match send r2 with
      | .error e => ((none, some (goStr ("SendRequest: ") ++ e)), [.sign req, .send r2])
      | .ok resp =>
        if resp.statusCode ≠ 200 then
          ((some resp.header, some (serverError resp)), [.sign req, .send r2])
        else ((some resp.header, none), [.sign req, .send r2])

/-- Embeds bucket.StoreObject: validate, build the PUT request with the
data as body, add the Content-MD5 header, sign, send, require 200. -/
def storeObject (name : GoStr) (sign : Signer) (send : Conn) (date key : GoStr)
    (data : List Nat) : Option GoStr × List Event :=
  match validateKey key with
  | some e => (some e, [])
  | none =>
    let req0 : Request :=
      { verb := goStr ("PUT"), path := objectPath name key,
        headers := [(goStr ("Date"), date)], parameters := [],
        body := some (pureReader data) }
    match addMd5Header req0 data with
    | .error e => (some e, [])
    | .ok req =>
      match sign req with
      | .error e => (some (goStr ("Sign: ") ++ e), [.sign req])
      | .ok r2 =>
        match send r2 with
        | .error e => (some (goStr ("SendRequest: ") ++ e), [.sign req, .send r2])
        | .ok resp =>
          if resp.statusCode ≠ 200 then
            (some (serverError resp), [.sign req, .send r2])
          else (none, [.sign req, .send r2])

/-- Embeds bucket.DeleteObject: validate, build the DELETE request, add
the Content-MD5 header of the empty body, sign, send, require 204. -/
def deleteObject (name : GoStr) (sign : Signer) (send : Conn) (date key : GoStr) :
    Option GoStr × List Event :=
  match validateKey key with
  | some e => (some e, [])
  | none =>
    let req0 : Request :=
      { verb := goStr ("DELETE"), path := objectPath name key,
        headers := [(goStr ("Date"), date)], parameters := [], body := none }
    match addMd5Header req0 [] with
    | .error e => (some e, [])
    | .ok req =>
      match sign req with
      | .error e => (some (goStr ("Sign: ") ++ e), [.sign req])
      | .ok r2 =>
        match send r2 with
        | .error e => (some (goStr ("SendRequest: ") ++ e), [.sign req, .send r2])
        | .ok resp =>
          if resp.statusCode ≠ 204 then
            (some (serverError resp), [.sign req, .send r2])
          else (none, [.sign req, .send r2])

/-- Embeds bucket.Put: validate, hash the stream with encodeMD5, build the
PUT request carrying the stream as body, sign, send, require 200. -/
def put (name : GoStr) (sign : Signer) (send : Conn) (date key : GoStr)
    (data : ReadSeeker) : Option GoStr × List Event :=
  match validateKey key with
  | some e => (some e, [])
  | none =>
    match encodeMD5 data with
    | ((_, some e), _) => (some e, [])
    | ((contentMD5, none), data2) =>
      let req : Request :=
        { verb := goStr ("PUT"), path := objectPath name key,
          headers := [(goStr ("Date"), date), (goStr ("Content-MD5"), contentMD5)],
          parameters := [], body := some data2 }
      match sign req with
      | .error e => (some (goStr ("Sign: ") ++ e), [.sign req])
      | .ok r2 =>
        match send r2 with
        | .error e => (some (goStr ("SendRequest: ") ++ e), [.sign req, .send r2])
        | .ok resp =>
          if resp.statusCode ≠ 200 then
            (some (serverError resp), [.sign req, .send r2])
          else (none, [.sign req, .send r2])

/-- Whitespace byte. -/
def isWsByte (b : Nat) : Bool := b == 32 || b == 9 || b == 10 || b == 13

/-- A byte allowed in an XML tag name (letters, digits, colon, underscore,
hyphen, period — enough for the wire format at hand). -/
def isNameByte (b : Nat) : Bool :=
  (decide (65 ≤ b) && decide (b ≤ 90)) ||
  (decide (97 ≤ b) && decide (b ≤ 122)) ||
  (decide (48 ≤ b) && decide (b ≤ 57)) ||
  b == 58 || b == 95 || b == 45 || b == 46

/-- An XML node: element with name and children, or character data. -/
inductive Xml where
  | elem (name : GoStr) (children : List Xml)
  | text (s : GoStr)

/-- Skip a processing instruction, consuming up to and including the
closing question-mark bracket. -/
def skipPI : Nat → List Nat → Except GoStr (List Nat)
  | 0, _ => .error (goStr ("EOF"))
  | _, [] => .error (goStr ("EOF"))
  | _, 63 :: 62 :: rest => .ok rest
  | fuel + 1, _ :: rest => skipPI fuel rest

/-- Skip a quoted attribute value, consuming up to and including the
closing quote. -/
def skipQuoted : Nat → List Nat → Except GoStr (List Nat)
  | 0, _ => .error (goStr ("EOF"))
  | _, [] => .error (goStr ("EOF"))
  | _, 34 :: rest => .ok rest
  | fuel + 1, _ :: rest => skipQuoted fuel rest

/-- Skip over a start tag's attributes, reporting whether the tag is
self-closing and returning the input after the closing bracket. -/
def skipAttrs : Nat → List Nat → Except GoStr (Bool × List Nat)
  | 0, _ => .error (goStr ("EOF"))
  | _, [] => .error (goStr ("EOF"))
  | _, 62 :: rest => .ok (false, rest)
  | _, 47 :: 62 :: rest => .ok (true, rest)
  | fuel + 1, 34 :: rest =>
    match skipQuoted (rest.length + 1) rest with
    | .error e => .error e
    | .ok rest2 => skipAttrs fuel rest2
  | fuel + 1, _ :: rest => skipAttrs fuel rest

/-- Parse a sequence of XML nodes.  With `close? = some n` the sequence is
the content of an open element named `n` and must end at its end tag; with
`close? = none` it is the top level of the document and ends at EOF.
Models the encoding/xml token stream closely enough for the list-page
wire format: processing instructions are skipped, elements nest, anything
between markup is character data. -/
def parseNodes : Nat → Option GoStr → List Nat → Except GoStr (List Xml × List Nat)
  | 0, _, _ => .error (goStr ("EOF"))
  | _, none, [] => .ok ([], [])
  | _, some _, [] => .error (goStr ("EOF"))
  | _ + 1, close?, 60 :: 47 :: rest =>
    match close? with
    | none => .error (goStr ("unexpected end element"))
    | some cn =>
      let name := rest.takeWhile isNameByte
      let rest2 := (rest.dropWhile isNameByte).dropWhile isWsByte
      match rest2 with
      | 62 :: rest3 =>
        if name = cn then .ok ([], rest3)
        else .error (goStr ("element closed by wrong name"))
      | _ => .error (goStr ("malformed end element"))
  | fuel + 1, close?, 60 :: 63 :: rest =>
    match skipPI (rest.length + 1) rest with
    | .error e => .error e
    | .ok rest2 => parseNodes fuel close? rest2
  | fuel + 1, close?, 60 :: rest =>
    let name := rest.takeWhile isNameByte
    if name.isEmpty then .error (goStr ("malformed start element"))
    else
      let rest2 := rest.dropWhile isNameByte
      match skipAttrs (rest2.length + 1) rest2 with
      | .error e => .error e
      | .ok (true, rest3) =>
        match parseNodes fuel close? rest3 with
        | .error e => .error e
        | .ok (ns, r) => .ok (.elem name [] :: ns, r)
      | .ok (false, rest3) =>
        match parseNodes fuel (some name) rest3 with
        | .error e => .error e
        | .ok (kids, rest4) =>
          match parseNodes fuel close? rest4 with
          | .error e => .error e
          | .ok (ns, r) => .ok (.elem name kids :: ns, r)
  | fuel + 1, close?, b :: rest =>
    let txt := (b :: rest).takeWhile (fun c => !(c == 60))
    let rest2 := (b :: rest).dropWhile (fun c => !(c == 60))
    match parseNodes fuel close? rest2 with
    | .error e => .error e
    | .ok (ns, r) => .ok (.text txt :: ns, r)

/-- Parse an XML document body to its root element.  Character data and
processing instructions before the root are skipped; a body with no
element at all fails with EOF, as the stdlib decoder does. -/
def parseXmlDoc (body : List Nat) : Except GoStr Xml :=
  match parseNodes (body.length + 2) none body with
  | .error e => .error e
  | .ok (nodes, _) =>
    match nodes.filterMap (fun n =>
        match n with
        | .elem nm kids => some (Xml.elem nm kids)
        | .text _ => none) with
    | [] => .error (goStr ("EOF"))
    | root :: _ => .ok root

/-- The local part of a possibly prefix-qualified XML name (after the
first colon). -/
def localOf (name : GoStr) : GoStr :=
  if name.contains 58 then (name.dropWhile (fun b => !(b == 58))).drop 1 else name

/-- The concatenated character data directly inside an element's
children. -/
def contentText : List Xml → GoStr
  | [] => []
  | .text t :: rest => t ++ contentText rest
  | .elem _ _ :: rest => contentText rest

/-- Mirrors the bucketContents struct: the Key value of one Contents
element. -/
structure bucketContents where
  key : GoStr
  deriving DecidableEq, Repr

/-- Mirrors the listBucketResult struct: the root element's local name and
the decoded Contents sequence. -/
structure listBucketResult where
  xmlLocal : GoStr
  contents : List bucketContents
  deriving DecidableEq, Repr

/-- The Key field of one Contents element: the character data of its Key
child elements (each occurrence overwrites, as stdlib field assignment
does; empty when absent). -/
def keyOfContents (kids : List Xml) : GoStr :=
  kids.foldl (fun acc k =>
    match k with
    | .elem kn kkids => if localOf kn = goStr ("Key") then contentText kkids else acc
    | .text _ => acc) []

/-- Modelled from the spec: the stdlib xml.Unmarshal of a response body
into the listBucketResult shape — parse the document, record the root's
local name, and extract the repeated Contents elements in document order,
each contributing its Key value. -/
def xmlUnmarshalLBR (body : List Nat) : Except GoStr listBucketResult :=
  match parseXmlDoc body with
  | .error e => .error e
  | .ok (.text _) => .error (goStr ("EOF"))
  | .ok (.elem name kids) =>
    .ok { xmlLocal := localOf name,
          contents := kids.filterMap (fun k =>
            match k with
            | .elem cn ckids =>
              if localOf cn = goStr ("Contents") then
                some { key := keyOfContents ckids }
              else none
            | .text _ => none) }

/-- Embeds bucket.ListKeys: validate the marker (the empty string is
exempt), build the GET request with the marker parameter only when
non-empty, sign, send, require 200, read and decode the body, require the
root element ListBucketResult, and return the Contents keys in order. -/
def listKeys (name : GoStr) (sign : Signer) (send : Conn) (date prevKey : GoStr) :
    (Option (List GoStr) × Option GoStr) × List Event :=
  if validateKey prevKey ≠ none ∧ prevKey ≠ [] then
    ((none, validateKey prevKey), [])
  else
    let params : List (GoStr × GoStr) :=
      if prevKey ≠ [] then [(goStr ("marker"), prevKey)] else []
    let req : Request :=
      { verb := goStr ("GET"), path := [47] ++ name,
        headers := [(goStr ("Date"), date)], parameters := params, body := none }
    match sign req with
    | .error e => ((none, some (goStr ("Sign: ") ++ e)), [.sign req])
    | .ok r2 =>
      match send r2 with
      | .error e => ((none, some (goStr ("SendRequest: ") ++ e)), [.sign req, .send r2])
      | .ok resp =>
        if resp.statusCode ≠ 200 then
          ((none, some (serverError resp)), [.sign req, .send r2])
        else
          match readBody resp with
          | .error e => ((none, some e), [.sign req, .send r2])
          | .ok body =>
            match xmlUnmarshalLBR body with
            | .error e =>
              ((none, some (goStr ("Invalid data from server (") ++ e ++
                goStr ("): ") ++ body)), [.sign req, .send r2])
            | .ok result =>
              if result.xmlLocal ≠ goStr ("ListBucketResult") then
                ((none, some (goStr ("Invalid data from server: ") ++ resp.body)),
                 [.sign req, .send r2])
              else
                ((some (result.contents.map bucketContents.key), none),
                 [.sign req, .send r2])

/-- A list-page response body with two Contents/Key entries (bar, baz). -/
def twoKeysBody : List Nat :=
  goStr ("<?xml version=\"1.0\" encoding=\"UTF-8\"?><ListBucketResult xmlns=\"http://s3.amazonaws.com/doc/2006-03-01/\"><Contents><Key>bar</Key></Contents><Contents><Key>baz</Key></Contents></ListBucketResult>")

/-- An empty list-page response body. -/
def emptyListBody : List Nat :=
  goStr ("<?xml version=\"1.0\" encoding=\"UTF-8\"?><ListBucketResult xmlns=\"http://s3.amazonaws.com/doc/2006-03-01/\"></ListBucketResult>")

/-- A response body whose root element is named FooBar. -/
def fooBarBody : List Nat :=
  goStr ("<?xml version=\"1.0\" encoding=\"UTF-8\"?><FooBar xmlns=\"http://s3.amazonaws.com/doc/2006-03-01/\"><Contents><Key>some_key</Key></Contents></FooBar>")

/-- Whether `small` is a leading run of `big` (byte-wise). -/
def hasPrefixB : List Nat → List Nat → Bool
  | _, [] => true
  | [], _ :: _ => false
  | a :: as, b :: bs => a == b && hasPrefixB as bs

/-- Whether `small` occurs contiguously inside `big` (substring test, used
to state the "error message contains ..." properties). -/
def containsSub : List Nat → List Nat → Bool
  | [], small => hasPrefixB [] small
  | a :: rest, small => hasPrefixB (a :: rest) small || containsSub rest small

theorem hasPrefixB_append (s t : List Nat) : hasPrefixB (s ++ t) s = true := by
  induction s with
  | nil => simp [hasPrefixB]
  | cons a as ih => simp [hasPrefixB, ih]

theorem containsSub_of_hasPrefixB (big small : List Nat)
    (h : hasPrefixB big small = true) : containsSub big small = true := by
  cases big with
  | nil => simpa [containsSub] using h
  | cons x rest => simp [containsSub, h]

theorem containsSub_cons (x : Nat) (big small : List Nat)
    (h : containsSub big small = true) : containsSub (x :: big) small = true := by
  simp [containsSub, h]

theorem containsSub_append_left (a big small : List Nat)
    (h : containsSub big small = true) : containsSub (a ++ big) small = true := by
  induction a with
  | nil => simpa using h
  | cons x xs ih => simpa [List.cons_append] using containsSub_cons x (xs ++ big) small ih

theorem containsSub_parts (a s b : List Nat) : containsSub (a ++ (s ++ b)) s = true :=
  containsSub_append_left a (s ++ b) s
    (containsSub_of_hasPrefixB _ _ (hasPrefixB_append s b))

/-- C1.  The claim states that isLegalXmlCharacter accepts exactly U+0009,
U+000A, U+000D, U+0020..U+D7FF, U+E000..U+FFFD and U+10000..U+10FFFF.  The
source instead uses the literal 0xDF77 as the first range's upper bound (a
transposition of the XML 1.0 bound 0xD7FF), so it accepts the surrogate
codepoint U+D800, which the claimed table (and the XML 1.0 Char production
that the source's own comments cite) excludes. -/
theorem isLegalXmlCharacter_surrogate_divergence :
    isLegalXmlCharacter 0xD800 = true ∧ specLegalXmlCharacter 0xD800 = false := by
  decide

/-- C3.  A body stream whose read fails during digest computation does NOT
surface an error from encodeMD5: the deferred rewind reassigns the named
return err, so when the rewind succeeds the md5Hash.Copy error is
swallowed and encodeMD5 returns a nil error; consequently Put proceeds to
sign and send the request and reports success for such a stream. -/
theorem encodeMD5_swallows_read_error :
    (encodeMD5 { content := goStr ("abc"), pos := 0, failAfter := some 1,
                 readErrMsg := goStr ("read failure"), seekErrs := [] }).1.2 = none ∧
    (put (goStr ("bucket")) idSigner
        (constConn { statusCode := 200, header := [], body := [], readErr := none })
        (goStr ("date")) (goStr ("key"))
        { content := goStr ("abc"), pos := 0, failAfter := some 1,
          readErrMsg := goStr ("read failure"), seekErrs := [] }).1 = none := by
  constructor
  · rfl
  · rfl

/-- C4 counterexample.  The claimed encoding of the parameter set is not
what makeRawQuery produces: url.Values.Encode escapes the space of
"qu ?x" as a plus sign (not %20) and emits the parameters in sorted key
order, so the claimed byte string differs from the computed one. -/
theorem makeRawQuery_claimed_bytes_false :
    makeRawQuery
      { verb := [], path := [], headers := [],
        parameters := [(goStr ("타코"), goStr ("burrito")),
                       (goStr ("b&az="), goStr ("qu ?x"))],
        body := none } ≠
    goStr ("%ED%83%80%EC%BD%94=burrito&b%26az%3D=qu%20%3Fx") := by
  decide

/-- C4 amended.  The parameter set encodes to exactly
b%26az%3D=qu+%3Fx&%ED%83%80%EC%BD%94=burrito: space encodes to a plus
sign, reserved characters are percent-encoded, non-ASCII is UTF-8
percent-escaped, and parameters appear in sorted key order. -/
theorem makeRawQuery_actual_bytes :
    makeRawQuery
      { verb := [], path := [], headers := [],
        parameters := [(goStr ("타코"), goStr ("burrito")),
                       (goStr ("b&az="), goStr ("qu ?x"))],
        body := none } =
    goStr ("b%26az%3D=qu+%3Fx&%ED%83%80%EC%BD%94=burrito") := by
  decide

/-- C9.  encodeMD5 restores the stream position to 0 on every exit path:
for a stream whose seek operations function (the meaning of "seekable"),
the position is 0 after both the digest-success and digest-failure exits;
and regardless of seek faults, whenever encodeMD5 reports no error (the
only case in which the stream is subsequently handed to the transport
layer by Put) the position is 0. -/
theorem seek0_pos_of_ok (b : ReadSeeker) (h : (seek0 b).1 = none) :
    ((seek0 b).2).pos = 0 := by
  rcases b with ⟨c, p, fa, rm, se⟩
  cases se with
  | nil => simp [seek0]
  | cons hd tl =>
    cases hd with
    | none => simp [seek0]
    | some v => simp [seek0] at h

theorem encodeMD5_restores_position (rs : ReadSeeker) :
    (rs.seekErrs = [] → ((encodeMD5 rs).2).pos = 0) ∧
    ((encodeMD5 rs).1.2 = none → ((encodeMD5 rs).2).pos = 0) := by
  constructor
  · intro h
    rcases rs with ⟨c, p, fa, rm, se⟩
    simp only at h
    subst h
    cases fa with
    | none => simp [encodeMD5, seek0, copyToEnd]
    | some n =>
      by_cases hlt : n < c.length
      · simp [encodeMD5, seek0, copyToEnd, hlt]
      · simp [encodeMD5, seek0, copyToEnd, hlt]
  · intro h
    unfold encodeMD5 at h ⊢
    rcases h1 : seek0 rs with ⟨e1, b1⟩
    cases e1 with
    | some e => simp [h1] at h
    | none =>
      rcases h2 : copyToEnd b1 with ⟨⟨data, ce⟩, b2⟩
      cases ce with
      | some e =>
        rcases h3 : seek0 b2 with ⟨e2, b3⟩
        simp only [h1, h2, h3] at h ⊢
        have h4 := seek0_pos_of_ok b2 (by simp [h3, h])
        simpa [h3] using h4
      | none =>
        rcases h3 : seek0 b2 with ⟨e2, b3⟩
        simp only [h1, h2, h3] at h ⊢
        have h4 := seek0_pos_of_ok b2 (by simp [h3, h])
        simpa [h3] using h4

/-- C9 witness: a concrete seek-healthy stream read from position 2 ends
with its position restored to 0. -/
theorem encodeMD5_restores_position_witness :
    ({ content := [1, 2, 3], pos := 2, failAfter := none,
       readErrMsg := [], seekErrs := [] } : ReadSeeker).seekErrs = [] ∧
    ((encodeMD5 { content := [1, 2, 3], pos := 2, failAfter := none,
                  readErrMsg := [], seekErrs := [] }).2).pos = 0 :=
  ⟨rfl, (encodeMD5_restores_position
    { content := [1, 2, 3], pos := 2, failAfter := none,
      readErrMsg := [], seekErrs := [] }).1 rfl⟩

/-- C2.  For every operation and every key that fails validation, the
operation returns exactly the validation error and its collaborator trace
is empty: neither the Signer's Sign nor the Connection's SendRequest is
ever invoked, for any signer and connection whatsoever (for ListKeys the
claim concerns non-empty markers). -/
theorem validation_precedes_network (name date key : GoStr) (sign : Signer)
    (send : Conn) (data : List Nat) (rs : ReadSeeker) (e : GoStr)
    (hv : validateKey key = some e) :
    getObject name sign send date key = ((none, some e), []) ∧
    getHeader name sign send date key = ((none, some e), []) ∧
    storeObject name sign send date key data = (some e, []) ∧
    deleteObject name sign send date key = (some e, []) ∧
    put name sign send date key rs = (some e, []) ∧
    (key ≠ [] → listKeys name sign send date key = ((none, some e), [])) := by
  refine ⟨?_, ?_, ?_, ?_, ?_, ?_⟩
  · simp [getObject, hv]
  · simp [getHeader, hv]
  · simp [storeObject, hv]
  · simp [deleteObject, hv]
  · simp [put, hv]
  · intro hk
    simp [listKeys, hv, hk]

/-- C2 witness: the key taco‹U+FFFE›burrito fails validation and every
operation returns that error with an empty collaborator trace. -/
theorem validation_precedes_network_witness :
    validateKey (goStr ("taco￾burrito")) =
      some (goStr ("Key contains invalid codepoint: U+FFFE")) ∧
    getObject (goStr ("b")) idSigner
        (constConn { statusCode := 200, header := [], body := [], readErr := none })
        (goStr ("d")) (goStr ("taco￾burrito")) =
      ((none, some (goStr ("Key contains invalid codepoint: U+FFFE"))), []) ∧
    getHeader (goStr ("b")) idSigner
        (constConn { statusCode := 200, header := [], body := [], readErr := none })
        (goStr ("d")) (goStr ("taco￾burrito")) =
      ((none, some (goStr ("Key contains invalid codepoint: U+FFFE"))), []) ∧
    storeObject (goStr ("b")) idSigner
        (constConn { statusCode := 200, header := [], body := [], readErr := none })
        (goStr ("d")) (goStr ("taco￾burrito")) [] =
      (some (goStr ("Key contains invalid codepoint: U+FFFE")), []) ∧
    deleteObject (goStr ("b")) idSigner
        (constConn { statusCode := 200, header := [], body := [], readErr := none })
        (goStr ("d")) (goStr ("taco￾burrito")) =
      (some (goStr ("Key contains invalid codepoint: U+FFFE")), []) ∧
    put (goStr ("b")) idSigner
        (constConn { statusCode := 200, header := [], body := [], readErr := none })
        (goStr ("d")) (goStr ("taco￾burrito")) (pureReader []) =
      (some (goStr ("Key contains invalid codepoint: U+FFFE")), []) ∧
    listKeys (goStr ("b")) idSigner
        (constConn { statusCode := 200, header := [], body := [], readErr := none })
        (goStr ("d")) (goStr ("taco￾burrito")) =
      ((none, some (goStr ("Key contains invalid codepoint: U+FFFE"))), []) := by
  have h := validation_precedes_network (goStr ("b")) (goStr ("d"))
    (goStr ("taco￾burrito")) idSigner
    (constConn { statusCode := 200, header := [], body := [], readErr := none })
    [] (pureReader []) (goStr ("Key contains invalid codepoint: U+FFFE")) (by decide)
  exact ⟨by decide, h.1, h.2.1, h.2.2.1, h.2.2.2.1, h.2.2.2.2.1,
    h.2.2.2.2.2 (by decide)⟩

/-- C5.  DeleteObject maps status 204 to success (nil error) and, provided
the response body is readable, maps any other status to a server error
whose message contains the decimal status code and the full body text. -/
theorem deleteObject_status_mapping (name date key : GoStr) (resp : Response)
    (hk : validateKey key = none) (hr : resp.readErr = none) :
    (resp.statusCode = 204 →
      (deleteObject name idSigner (constConn resp) date key).1 = none) ∧
    (resp.statusCode ≠ 204 → ∃ msg,
      (deleteObject name idSigner (constConn resp) date key).1 = some msg ∧
      containsSub msg (decBytes resp.statusCode) = true ∧
      containsSub msg resp.body = true) := by
  have hmd5 : (encodeMD5 (pureReader [])).1 = (base64Enc (md5 []), none) := rfl
  have hnm : goStr ("Date") ≠ goStr ("Content-MD5") := by decide
  constructor
  · intro h204
    simp [deleteObject, hk, addMd5Header, hmd5, setAssoc, hnm, idSigner, constConn, h204]
  · intro hne
    refine ⟨serverError resp, ?_, ?_, ?_⟩
    · simp [deleteObject, hk, addMd5Header, hmd5, setAssoc, hnm, idSigner, constConn, hne]
    · unfold serverError
      rw [hr]
      have h := containsSub_parts (goStr ("Error from server: "))
        (decBytes resp.statusCode) ([32] ++ resp.body)
      simpa [List.append_assoc] using h
    · unfold serverError
      rw [hr]
      have h := containsSub_parts
        (goStr ("Error from server: ") ++ decBytes resp.statusCode ++ [32]) resp.body []
      simpa [List.append_assoc] using h

/-- C5 witness: status 500 with body taco yields an error message
containing 500 and taco; status 204 yields success. -/
theorem deleteObject_status_mapping_witness :
    validateKey (goStr ("a")) = none ∧
    (∃ msg,
      (deleteObject (goStr ("some.bucket")) idSigner
        (constConn { statusCode := 500, header := [], body := goStr ("taco"),
                     readErr := none }) (goStr ("date")) (goStr ("a"))).1 = some msg ∧
      containsSub msg (goStr ("500")) = true ∧
      containsSub msg (goStr ("taco")) = true) ∧
    (deleteObject (goStr ("some.bucket")) idSigner
        (constConn { statusCode := 204, header := [], body := goStr ("taco"),
                     readErr := none }) (goStr ("date")) (goStr ("a"))).1 = none := by
  refine ⟨by decide, ?_, ?_⟩
  · exact (deleteObject_status_mapping (goStr ("some.bucket")) (goStr ("date"))
      (goStr ("a"))
      { statusCode := 500, header := [], body := goStr ("taco"), readErr := none }
      (by decide) rfl).2 (by decide)
  · exact (deleteObject_status_mapping (goStr ("some.bucket")) (goStr ("date"))
      (goStr ("a"))
      { statusCode := 204, header := [], body := goStr ("taco"), readErr := none }
      (by decide) rfl).1 rfl

/-- C6.  ListKeys with the empty marker hands the Signer a request with no
query parameters (hence no marker); with a non-empty marker passing
validation, the request handed to the Signer carries exactly the parameter
marker = prevKey, unencoded; and a non-empty marker failing validation is
rejected with an empty collaborator trace, before any request is built. -/
theorem listKeys_marker_shape (name date : GoStr) (sign : Signer) (send : Conn)
    (prevKey e : GoStr) :
    (∃ t, (listKeys name sign send date []).2 =
      Event.sign (Request.mk (goStr ("GET")) ([47] ++ name)
        [(goStr ("Date"), date)] [] none) :: t) ∧
    (prevKey ≠ [] → validateKey prevKey = none →
      ∃ t, (listKeys name sign send date prevKey).2 =
        Event.sign (Request.mk (goStr ("GET")) ([47] ++ name)
          [(goStr ("Date"), date)] [(goStr ("marker"), prevKey)] none) :: t) ∧
    (prevKey ≠ [] → validateKey prevKey = some e →
      listKeys name sign send date prevKey = ((none, some e), [])) := by
  refine ⟨?_, ?_, ?_⟩
  · unfold listKeys
    rw [if_neg (by simp)]
    simp only [ne_eq, not_true_eq_false, if_neg, ite_false]
    cases hS : sign (Request.mk (goStr ("GET")) ([47] ++ name)
        [(goStr ("Date"), date)] [] none) with
    | error e2 => exact ⟨[], by simp [hS]⟩
    | ok r2 =>
      cases hC : send r2 with
      | error e3 => exact ⟨[Event.send r2], by simp [hS, hC]⟩
      | ok resp =>
        refine ⟨[Event.send r2], ?_⟩
        simp only [hS, hC]
        split
        · rfl
        · split
          · rfl
          · split
            · rfl
            · split
              · rfl
              · rfl
  · intro hne hok
    unfold listKeys
    rw [if_neg (by simp [hok])]
    simp only [ne_eq, hne, not_false_eq_true, if_pos, ite_true]
    cases hS : sign (Request.mk (goStr ("GET")) ([47] ++ name)
        [(goStr ("Date"), date)] [(goStr ("marker"), prevKey)] none) with
    | error e2 => exact ⟨[], by simp [hS]⟩
    | ok r2 =>
      cases hC : send r2 with
      | error e3 => exact ⟨[Event.send r2], by simp [hS, hC]⟩
      | ok resp =>
        refine ⟨[Event.send r2], ?_⟩
        simp only [hS, hC]
        split
        · rfl
        · split
          · rfl
          · split
            · rfl
            · split
              · rfl
              · rfl
  · intro hne hbad
    simp [listKeys, hne, hbad]

/-- C6 witness: the empty marker produces a marker-free request; the valid
marker taco burrito is passed through unencoded; the invalid marker
taco‹U+0000›burrito is rejected with an empty trace. -/
theorem listKeys_marker_shape_witness :
    (∃ t, (listKeys (goStr ("some.bucket")) idSigner
        (constConn { statusCode := 200, header := [], body := emptyListBody,
                     readErr := none }) (goStr ("d")) []).2 =
      Event.sign (Request.mk (goStr ("GET")) ([47] ++ goStr ("some.bucket"))
        [(goStr ("Date"), goStr ("d"))] [] none) :: t) ∧
    validateKey (goStr ("taco burrito")) = none ∧
    (∃ t, (listKeys (goStr ("some.bucket")) idSigner
        (constConn { statusCode := 200, header := [], body := emptyListBody,
                     readErr := none }) (goStr ("d")) (goStr ("taco burrito"))).2 =
      Event.sign (Request.mk (goStr ("GET")) ([47] ++ goStr ("some.bucket"))
        [(goStr ("Date"), goStr ("d"))]
        [(goStr ("marker"), goStr ("taco burrito"))] none) :: t) ∧
    validateKey (goStr ("taco\x00burrito")) =
      some (goStr ("Key contains invalid codepoint: U+0000")) ∧
    listKeys (goStr ("some.bucket")) idSigner
        (constConn { statusCode := 200, header := [], body := emptyListBody,
                     readErr := none }) (goStr ("d")) (goStr ("taco\x00burrito")) =
      ((none, some (goStr ("Key contains invalid codepoint: U+0000"))), []) := by
  have h1 := listKeys_marker_shape (goStr ("some.bucket")) (goStr ("d")) idSigner
    (constConn { statusCode := 200, header := [], body := emptyListBody,
                 readErr := none }) (goStr ("taco burrito")) []
  have h2 := listKeys_marker_shape (goStr ("some.bucket")) (goStr ("d")) idSigner
    (constConn { statusCode := 200, header := [], body := emptyListBody,
                 readErr := none }) (goStr ("taco\x00burrito"))
    (goStr ("Key contains invalid codepoint: U+0000"))
  exact ⟨h1.1, by decide, h1.2.1 (by decide) (by decide), by decide,
    h2.2.2 (by decide) (by decide)⟩

/-- C7.  For a 200 response whose body is readable: when the body is
malformed XML, ListKeys fails with the protocol error "Invalid data from
server (parser error): body", which contains both the parser error and the
raw body; when the body parses but the root element's local name is not
ListBucketResult, ListKeys fails with "Invalid data from server: body",
which contains the raw body (and hence the offending root name occurring
in it). -/
theorem listKeys_protocol_error (name date : GoStr) (resp : Response)
    (hs : resp.statusCode = 200) (hr : resp.readErr = none) :
    (∀ e, xmlUnmarshalLBR resp.body = .error e →
      (listKeys name idSigner (constConn resp) date []).1 =
        (none, some (goStr ("Invalid data from server (") ++ e ++ goStr ("): ") ++
          resp.body)) ∧
      containsSub (goStr ("Invalid data from server (") ++ e ++ goStr ("): ") ++
        resp.body) e = true ∧
      containsSub (goStr ("Invalid data from server (") ++ e ++ goStr ("): ") ++
        resp.body) resp.body = true) ∧
    (∀ r, xmlUnmarshalLBR resp.body = .ok r →
      r.xmlLocal ≠ goStr ("ListBucketResult") →
      (listKeys name idSigner (constConn resp) date []).1 =
        (none, some (goStr ("Invalid data from server: ") ++ resp.body)) ∧
      containsSub (goStr ("Invalid data from server: ") ++ resp.body) resp.body =
        true) := by
  constructor
  · intro e hx
    refine ⟨?_, ?_, ?_⟩
    · simp [listKeys, idSigner, constConn, hs, readBody, hr, hx]
    · have h := containsSub_parts (goStr ("Invalid data from server (")) e
        (goStr ("): ") ++ resp.body)
      simpa [List.append_assoc] using h
    · have h := containsSub_parts
        (goStr ("Invalid data from server (") ++ e ++ goStr ("): ")) resp.body []
      simpa [List.append_assoc] using h
  · intro r hx hroot
    refine ⟨?_, ?_⟩
    · simp [listKeys, idSigner, constConn, hs, readBody, hr, hx, hroot]
    · have h := containsSub_parts (goStr ("Invalid data from server: ")) resp.body []
      simpa [List.append_assoc] using h

set_option maxRecDepth 100000 in
/-- C7 witness: the junk body taco yields the EOF protocol error carrying
the body, and the FooBar-rooted body yields a protocol error whose message
contains FooBar. -/
theorem listKeys_protocol_error_witness :
    xmlUnmarshalLBR (goStr ("taco")) = .error (goStr ("EOF")) ∧
    (listKeys (goStr ("some.bucket")) idSigner
        (constConn { statusCode := 200, header := [], body := goStr ("taco"),
                     readErr := none }) (goStr ("d")) []).1 =
      (none, some (goStr ("Invalid data from server (EOF): taco"))) ∧
    (∃ r, xmlUnmarshalLBR fooBarBody = .ok r ∧ r.xmlLocal = goStr ("FooBar")) ∧
    (listKeys (goStr ("some.bucket")) idSigner
        (constConn { statusCode := 200, header := [], body := fooBarBody,
                     readErr := none }) (goStr ("d")) []).1 =
      (none, some (goStr ("Invalid data from server: ") ++ fooBarBody)) ∧
    containsSub (goStr ("Invalid data from server: ") ++ fooBarBody)
      (goStr ("FooBar")) = true := by
  have h1 := (listKeys_protocol_error (goStr ("some.bucket")) (goStr ("d"))
    { statusCode := 200, header := [], body := goStr ("taco"), readErr := none }
    rfl rfl).1 (goStr ("EOF")) rfl
  have h2 := (listKeys_protocol_error (goStr ("some.bucket")) (goStr ("d"))
    { statusCode := 200, header := [], body := fooBarBody, readErr := none }
    rfl rfl).2
    { xmlLocal := goStr ("FooBar"), contents := [{ key := goStr ("some_key") }] }
    rfl (by decide)
  exact ⟨rfl, h1.1,
    ⟨{ xmlLocal := goStr ("FooBar"), contents := [{ key := goStr ("some_key") }] },
      rfl, rfl⟩, h2.1, by decide⟩

/-- C8.  For a 200 response whose readable body decodes (as a
listBucketResult) with root local name ListBucketResult, ListKeys succeeds
and returns exactly the Key values of the repeated Contents elements in
document order, with nil error. -/
theorem listKeys_decodes_contents_keys (name date : GoStr) (resp : Response)
    (r : listBucketResult) (hs : resp.statusCode = 200) (hr : resp.readErr = none)
    (hx : xmlUnmarshalLBR resp.body = .ok r)
    (hroot : r.xmlLocal = goStr ("ListBucketResult")) :
    (listKeys name idSigner (constConn resp) date []).1 =
      (some (r.contents.map bucketContents.key), none) := by
  simp [listKeys, idSigner, constConn, hs, readBody, hr, hx, hroot]

set_option maxRecDepth 100000 in
/-- C8 witness: the two-key body decodes to the ordered sequence bar, baz
and the empty ListBucketResult body decodes to the empty sequence, both
with nil error. -/
theorem listKeys_decodes_contents_keys_witness :
    xmlUnmarshalLBR twoKeysBody =
      .ok { xmlLocal := goStr ("ListBucketResult"),
            contents := [{ key := goStr ("bar") }, { key := goStr ("baz") }] } ∧
    (listKeys (goStr ("some.bucket")) idSigner
        (constConn { statusCode := 200, header := [], body := twoKeysBody,
                     readErr := none }) (goStr ("d")) []).1 =
      (some [goStr ("bar"), goStr ("baz")], none) ∧
    xmlUnmarshalLBR emptyListBody =
      .ok { xmlLocal := goStr ("ListBucketResult"), contents := [] } ∧
    (listKeys (goStr ("some.bucket")) idSigner
        (constConn { statusCode := 200, header := [], body := emptyListBody,
                     readErr := none }) (goStr ("d")) []).1 =
      (some [], none) := by
  have h1 := listKeys_decodes_contents_keys (goStr ("some.bucket")) (goStr ("d"))
    { statusCode := 200, header := [], body := twoKeysBody, readErr := none }
    { xmlLocal := goStr ("ListBucketResult"),
      contents := [{ key := goStr ("bar") }, { key := goStr ("baz") }] }
    rfl rfl rfl rfl
  have h2 := listKeys_decodes_contents_keys (goStr ("some.bucket")) (goStr ("d"))
    { statusCode := 200, header := [], body := emptyListBody, readErr := none }
    { xmlLocal := goStr ("ListBucketResult"), contents := [] }
    rfl rfl rfl rfl
  exact ⟨rfl, h1, rfl, h2⟩

/-- C10.  GetHeader returns the response's header mapping on the 200 path
with nil error, and on any non-200 path it still returns that header
mapping alongside the server error rather than a nil header result. -/
theorem getHeader_header_alongside_error (name date key : GoStr) (resp : Response)
    (hk : validateKey key = none) :
    (resp.statusCode = 200 →
      (getHeader name idSigner (constConn resp) date key).1 =
        (some resp.header, none)) ∧
    (resp.statusCode ≠ 200 →
      (getHeader name idSigner (constConn resp) date key).1 =
        (some resp.header, some (serverError resp))) := by
  constructor
  · intro h
    simp [getHeader, hk, idSigner, constConn, h]
  · intro h
    simp [getHeader, hk, idSigner, constConn, h]

/-- C10 witness: a 500 response returns the concrete header mapping
together with the server error, and a 200 response returns it with nil
error. -/
theorem getHeader_header_alongside_error_witness :
    validateKey (goStr ("a")) = none ∧
    (getHeader (goStr ("some.bucket")) idSigner
        (constConn { statusCode := 500,
                     header := [(goStr ("x-amz-expiration"), [goStr ("foobar")])],
                     body := goStr ("taco"), readErr := none })
        (goStr ("d")) (goStr ("a"))).1 =
      (some [(goStr ("x-amz-expiration"), [goStr ("foobar")])],
       some (goStr ("Error from server: 500 taco"))) ∧
    (getHeader (goStr ("some.bucket")) idSigner
        (constConn { statusCode := 200,
                     header := [(goStr ("x-amz-expiration"), [goStr ("foobar")])],
                     body := [], readErr := none })
        (goStr ("d")) (goStr ("a"))).1 =
      (some [(goStr ("x-amz-expiration"), [goStr ("foobar")])], none) := by
  have h1 := (getHeader_header_alongside_error (goStr ("some.bucket")) (goStr ("d"))
    (goStr ("a"))
    { statusCode := 500, header := [(goStr ("x-amz-expiration"), [goStr ("foobar")])],
      body := goStr ("taco"), readErr := none } (by decide)).2 (by decide)
  have h2 := (getHeader_header_alongside_error (goStr ("some.bucket")) (goStr ("d"))
    (goStr ("a"))
    { statusCode := 200, header := [(goStr ("x-amz-expiration"), [goStr ("foobar")])],
      body := [], readErr := none } (by decide)).1 rfl
  exact ⟨by decide, h1, h2⟩

end S3
